import Mathlib

/-!
Verification of the core of `mcp-k3s-server`: the retry/backoff engine
(`src/core/error_recovery.py`) and the stdio MCP chatbot client
(`src/src/mcp_k3s_monitor/chatbot/mcp_client.py`), shallowly embedded.

Modelling conventions:
* Python floats for delays are modelled as rationals (`ℚ`).
* `random.uniform(-r, r)` is modelled as `r * u` for a draw `u ∈ [-1, 1]`
  supplied explicitly; the retry loop receives one draw per attempt index.
* Python exceptions are modelled by a class tag plus a payload
  distinguishing instances; `except (T1, ...)` is `isinstance`-matching,
  i.e. subclass-closed membership in the tuple.
* `time.sleep` is modelled by accumulating the slept duration.
-/

/-- Python exception classes occurring in the embedded code; every class
is a subclass of `exception` (Python's `Exception`). -/
inductive ExcClass
  | exception
  | valueError
  | typeError
  | keyError
  | mcpChatbotClientError
  deriving DecidableEq, Repr

/-- The `isinstance`-style subclass test: every class is a subclass of
`Exception` and of itself. -/
def ExcClass.isSubclassOf : ExcClass → ExcClass → Bool
  | _, .exception => true
  | c, d => c == d

/-- An exception instance: its class plus a payload distinguishing
distinct instances of the same class. -/
structure Exc where
  cls : ExcClass
  payload : Nat
  deriving DecidableEq, Repr

/-- The `RetryStrategy` enum from error_recovery.py. -/
inductive RetryStrategy
  | exponential
  | linear
  | constant
  deriving DecidableEq, Repr

/-- The `RetryConfig` dataclass from error_recovery.py.  `max_retries` is a
`Nat` because `__post_init__` rejects negative values; the remaining
`__post_init__` checks are `validRetryConfig` below.  Note the source
performs no validation of `exponential_base`, embedded here as `Int`. -/
structure RetryConfig where
  max_retries : Nat := 3
  base_delay : ℚ := 1
  max_delay : ℚ := 60
  exponential_base : Int := 2
  jitter : Bool := true
  jitter_factor : ℚ := 1/10
  strategy : RetryStrategy := .exponential
  retryable_exceptions : List ExcClass := [.exception]

/-- The checks of `RetryConfig.__post_init__` (beyond `max_retries ≥ 0`,
which the `Nat` type already enforces). -/
def validRetryConfig (c : RetryConfig) : Bool :=
  decide (0 ≤ c.base_delay) && decide (c.base_delay ≤ c.max_delay) &&
  decide (0 ≤ c.jitter_factor) && decide (c.jitter_factor ≤ 1)

/-- Matching of `except config.retryable_exceptions`: it catches an exception whose class
is a subclass of some entry of the tuple. -/
def retryableExc (c : RetryConfig) (e : Exc) : Bool :=
  c.retryable_exceptions.any fun t => e.cls.isSubclassOf t

/-- The `RetryResult` dataclass from error_recovery.py. -/
structure RetryResult (α : Type) where
  success : Bool
  result : Option α := none
  attempts : Nat := 0
  total_delay : ℚ := 0
  last_exception : Option Exc := none
  deriving DecidableEq, Repr

/-- One run of `ErrorRecoverySystem.execute_with_retry`: the outcome (a
`RetryResult`, or a propagated non-retryable exception), the number of
`_total_retries` increments performed, and the total duration slept. -/
structure EngineRun (α : Type) where
  outcome : Except Exc (RetryResult α)
  retriesDelta : Nat
  slept : ℚ

/-- The method `ErrorRecoverySystem.calculate_delay`.  Here `u ∈ [-1,1]` is the uniform
draw: `random.uniform(-r, r)` is `r * u`. -/
def calculate_delay (config : RetryConfig) (attempt : Nat) (u : ℚ) : ℚ :=
  let delay : ℚ :=
    match config.strategy with
    | .exponential => config.base_delay * ((config.exponential_base : ℚ)) ^ attempt
    | .linear => config.base_delay * ((attempt : ℚ) + 1)
    | .constant => config.base_delay
  let capped := min delay config.max_delay
  if config.jitter then
    let jitter_range := capped * config.jitter_factor
    max 0 (capped + jitter_range * u)
  else capped

/-- The `for attempt in range(config.max_retries + 1)` loop of
`execute_with_retry`.  Arguments: current attempt index, remaining loop
iterations, `_total_retries` increments so far, accumulated delay, last
exception seen.  `us` gives the jitter draw used at each attempt. -/
def goRetry (cfg : RetryConfig) (op : Nat → Except Exc α) (us : Nat → ℚ) :
    Nat → Nat → Nat → ℚ → Option Exc → EngineRun α
  | _attempt, 0, retries, td, last =>
      ⟨Except.ok {success := false, result := none, attempts := cfg.max_retries + 1,
                  total_delay := td, last_exception := last}, retries, td⟩
  | attempt, r + 1, retries, td, _last =>
      match op attempt with
      | Except.ok v =>
          ⟨Except.ok {success := true, result := some v, attempts := attempt + 1,
                      total_delay := td, last_exception := none}, retries, td⟩
      | Except.error e =>
          if retryableExc cfg e then
            if attempt < cfg.max_retries then
              goRetry cfg op us (attempt + 1) r (retries + 1)
                (td + calculate_delay cfg attempt (us attempt)) (some e)
            else
              goRetry cfg op us (attempt + 1) r (retries + 1) td (some e)
          else ⟨Except.error e, retries, td⟩

/-- The method `ErrorRecoverySystem.execute_with_retry`, as a function of the
operation's behaviour per attempt index and the jitter draws. -/
def execute_with_retry (cfg : RetryConfig) (op : Nat → Except Exc α)
    (us : Nat → ℚ) : EngineRun α :=
  goRetry cfg op us 0 (cfg.max_retries + 1) 0 0 none

/-- Sum of the delays computed for attempts `a, a+1, ..., a+k-1`. -/
def sumDelays (cfg : RetryConfig) (us : Nat → ℚ) : Nat → Nat → ℚ
  | _, 0 => 0
  | a, k + 1 => calculate_delay cfg a (us a) + sumDelays cfg us (a + 1) k

example : calculate_delay {jitter := false} 2 0 = 4 := by
  norm_num [calculate_delay]
example : calculate_delay {jitter := false, strategy := .linear} 2 0 = 3 := by
  norm_num [calculate_delay]
example : calculate_delay {jitter := false} 7 0 = 60 := by
  norm_num [calculate_delay]

/-! ## The MCP chatbot client (mcp_client.py)

The subprocess's stdin/stdout pipes are modelled as frame queues inside a
`ProcState`; `json.loads` on a read line is modelled by the stdout queue
holding either a parsed `Json` value or an undecodable raw line.  The
current wall clock is passed explicitly where the source calls
`time.time()`. -/

/-- JSON values, as produced by `json.loads` / consumed by `json.dumps`. -/
inductive Json
  | null
  | bool (b : Bool)
  | num (n : Int)
  | str (s : String)
  | arr (xs : List Json)
  | obj (kvs : List (String × Json))

/-- Dictionary lookup on a JSON object (`resp["k"]` / `"k" in resp`). -/
def jsonGet : Json → String → Option Json
  | .obj kvs, k => go kvs k
  | _, _ => none
where
  go : List (String × Json) → String → Option Json
  | [], _ => none
  | (k', v) :: rest, k => if k' == k then some v else go rest k

/-- Python truthiness of a JSON value (`if self._tools_cache:`). -/
def jsonTruthy : Json → Bool
  | .null => false
  | .bool b => b
  | .num n => n != 0
  | .str s => !(s == "")
  | .arr xs => !xs.isEmpty
  | .obj kvs => !kvs.isEmpty

/-- Encoding `MCPMessage.to_json`: the request frame written for a method, params
and id (`params or {}` handled by the caller passing a concrete object). -/
def toJsonMessage (method : String) (params : Json) (id : Int) : Json :=
  .obj [("jsonrpc", .str "2.0"), ("method", .str method),
        ("params", params), ("id", .num id)]

/-- The spawned server process: whether `poll()` is `None` (alive), the
frames written to its stdin, and the frames pending on its stdout.  A
stdout entry `Except.error raw` is a line `json.loads` rejects. -/
structure ProcState where
  alive : Bool
  stdinFrames : List Json
  stdoutFrames : List (Except String Json)

/-- The distinct `MCPChatbotClientError` raises of mcp_client.py,
distinguished by their message. -/
inductive ClientErr
  | notConnected
  | timeout
  | invalidJson
  | toolError (e : Json)
  | listToolsFailed
  | unexpectedResponse

/-- The mutable state of an `MCPChatbotClient` instance. -/
structure MCPChatbotClient where
  process : Option ProcState
  request_id : Nat
  tools_cache : Option Json
  tools_cache_time : ℚ

/-- State set by `__init__` (before `auto_connect`): `process = None`,
`request_id = 0`, empty cache. -/
def initClient : MCPChatbotClient :=
  { process := none, request_id := 0, tools_cache := none, tools_cache_time := 0 }

/-- The method `is_connected`: the handle exists and `poll()` is `None`. -/
def is_connected (st : MCPChatbotClient) : Bool :=
  match st.process with
  | some p => p.alive
  | none => false

/-- The method `_get_next_request_id`: increment then return. -/
def get_next_request_id (st : MCPChatbotClient) : MCPChatbotClient × Nat :=
  ({ st with request_id := st.request_id + 1 }, st.request_id + 1)

/-- The method `_send_request`: check connectivity, obtain the next id, write the
request frame, then read one response frame (empty stdout queue models
the poll loop expiring: a timeout).  No check relates the decoded frame's
id to the request id. -/
def send_request (st : MCPChatbotClient) (method : String) (params : Json) :
    MCPChatbotClient × Except ClientErr Json :=
  match st.process with
  | none => (st, .error .notConnected)
  | some p =>
      if p.alive then
        let rid := st.request_id + 1
        let msg := toJsonMessage method params (rid : Int)
        let p1 : ProcState := { p with stdinFrames := p.stdinFrames ++ [msg] }
        match p1.stdoutFrames with
        | [] => ({ st with request_id := rid, process := some p1 }, .error .timeout)
        | f :: rest =>
            let p2 : ProcState := { p1 with stdoutFrames := rest }
            let st2 := { st with request_id := rid, process := some p2 }
            match f with
            | .error _ => (st2, .error .invalidJson)
            | .ok j => (st2, .ok j)
      else (st, .error .notConnected)

/-- Whether `self._tools_cache` is truthy (non-`None` and non-empty). -/
def cacheTruthy (st : MCPChatbotClient) : Bool :=
  match st.tools_cache with
  | some t => jsonTruthy t
  | none => false

/-- The method `list_tools`: serve from the cache only when `use_cache` is set, the
cached value is truthy and it is younger than 60 seconds; otherwise send
`tools/list` and, on a response with a `result` key, store and return its
`tools` entry (default `[]`). -/
def list_tools (st : MCPChatbotClient) (now : ℚ) (use_cache : Bool) :
    MCPChatbotClient × Except ClientErr Json :=
  if use_cache && cacheTruthy st && decide (now - st.tools_cache_time < 60) then
    (st, .ok (st.tools_cache.getD .null))
  else
    match send_request st "tools/list" (.obj []) with
    | (st1, .error e) => (st1, .error e)
    | (st1, .ok resp) =>
        match jsonGet resp "result" with
        | some res =>
            let tools := (jsonGet res "tools").getD (.arr [])
            ({ st1 with tools_cache := some tools, tools_cache_time := now },
             .ok tools)
        | none => (st1, .error .listToolsFailed)

/-- The method `call_tool`: send `tools/call`, return the `result` value, raise on an
`error` envelope or a response with neither key. -/
def call_tool (st : MCPChatbotClient) (tool_name : String) (args : Json) :
    MCPChatbotClient × Except ClientErr Json :=
  match send_request st "tools/call"
      (.obj [("name", .str tool_name), ("arguments", args)]) with
  | (st1, .error e) => (st1, .error e)
  | (st1, .ok resp) =>
      match jsonGet resp "result" with
      | some r => (st1, .ok r)
      | none =>
          match jsonGet resp "error" with
          | some err => (st1, .error (.toolError err))
          | none => (st1, .error .unexpectedResponse)

/-- Every raise in mcp_client.py constructs the single class
`MCPChatbotClientError`; as a Python exception instance each client
failure therefore carries that class, whatever its kind. -/
def excOfClientErr (_e : ClientErr) : Exc :=
  { cls := .mcpChatbotClientError, payload := 0 }

/-- The server writing one more frame to its stdout (an external event,
not a client operation). -/
def deliverFrame (st : MCPChatbotClient) (f : Except String Json) :
    MCPChatbotClient :=
  match st.process with
  | some p => { st with process := some { p with stdoutFrames := p.stdoutFrames ++ [f] } }
  | none => st

/-! ## Claims about the backoff calculator -/

/-- C5: with jitter disabled, the delay for attempt `a` is
`min (base_delay * exponential_base ^ a) max_delay` under the exponential
strategy, `min (base_delay * (a + 1)) max_delay` under the linear
strategy, and `min base_delay max_delay` under the constant strategy. -/
theorem c5_delay_formulas (cfg : RetryConfig) (a : Nat) (u : ℚ)
    (_hv : validRetryConfig cfg = true) (hj : cfg.jitter = false) :
    (cfg.strategy = RetryStrategy.exponential →
      calculate_delay cfg a u =
        min (cfg.base_delay * ((cfg.exponential_base : ℚ)) ^ a) cfg.max_delay) ∧
    (cfg.strategy = RetryStrategy.linear →
      calculate_delay cfg a u =
        min (cfg.base_delay * ((a : ℚ) + 1)) cfg.max_delay) ∧
    (cfg.strategy = RetryStrategy.constant →
      calculate_delay cfg a u = min cfg.base_delay cfg.max_delay) := by
  refine ⟨fun hs => ?_, fun hs => ?_, fun hs => ?_⟩ <;> simp [calculate_delay, hs, hj]

theorem c5_delay_formulas_witness :
    validRetryConfig { jitter := false } = true ∧
    calculate_delay { jitter := false } 2 0 =
      min ((1 : ℚ) * (2 : ℚ) ^ 2) 60 := by
  constructor
  · norm_num [validRetryConfig]
  · exact (c5_delay_formulas { jitter := false } 2 0
      (by norm_num [validRetryConfig]) rfl).1 rfl

/-- C4 as stated is false: construction-time validation does not
constrain `exponential_base`, and with `exponential_base = -2`, jitter
disabled and the exponential strategy, the delay at attempt 1 is
negative. -/
def cfgNegBase : RetryConfig := { exponential_base := -2, jitter := false }

theorem c4_negative_delay_cex :
    validRetryConfig cfgNegBase = true ∧ calculate_delay cfgNegBase 1 0 < 0 := by
  constructor
  · norm_num [validRetryConfig, cfgNegBase]
  · norm_num [calculate_delay, cfgNegBase]

/-- C4 amended: for every configuration accepted by construction-time
validation whose `exponential_base` is in addition non-negative,
`calculate_delay` is total and non-negative at every attempt index, for
all three strategies and whether or not jitter is enabled. -/
theorem c4_delay_nonneg (cfg : RetryConfig) (a : Nat) (u : ℚ)
    (hv : validRetryConfig cfg = true) (hb : 0 ≤ cfg.exponential_base) :
    0 ≤ calculate_delay cfg a u := by
  simp only [validRetryConfig, Bool.and_eq_true, decide_eq_true_eq] at hv
  obtain ⟨⟨⟨h1, h2⟩, _h3⟩, _h4⟩ := hv
  have hmax : (0 : ℚ) ≤ cfg.max_delay := le_trans h1 h2
  have hbase : (0 : ℚ) ≤ ((cfg.exponential_base : ℚ)) := by exact_mod_cast hb
  have hD : 0 ≤ (match cfg.strategy with
      | RetryStrategy.exponential => cfg.base_delay * ((cfg.exponential_base : ℚ)) ^ a
      | RetryStrategy.linear => cfg.base_delay * ((a : ℚ) + 1)
      | RetryStrategy.constant => cfg.base_delay) := by
    cases cfg.strategy with
    | exponential => exact mul_nonneg h1 (pow_nonneg hbase a)
    | linear => exact mul_nonneg h1 (by positivity)
    | constant => exact h1
  unfold calculate_delay
  by_cases hj : cfg.jitter
  · simp [hj]
  · simpa [hj] using le_min hD hmax

theorem c4_delay_nonneg_witness :
    validRetryConfig {} = true ∧ (0 : Int) ≤ RetryConfig.exponential_base {} ∧
    0 ≤ calculate_delay {} 0 0 := by
  exact ⟨by norm_num [validRetryConfig], by decide,
    c4_delay_nonneg {} 0 0 (by norm_num [validRetryConfig]) (by decide)⟩

/-! ## Claims about the retry engine -/

/-- C7: an exception whose class matches none of the configured
retryable exception types propagates out of `execute_with_retry`
immediately: no retry result is produced, no retry-counter increment and
no sleep happens, and later attempts are never consulted. -/
theorem c7_nonretryable_propagates (cfg : RetryConfig) (op : Nat → Except Exc α)
    (us : Nat → ℚ) (e : Exc)
    (h0 : op 0 = Except.error e) (hnr : retryableExc cfg e = false) :
    execute_with_retry cfg op us = ⟨Except.error e, 0, 0⟩ := by
  unfold execute_with_retry
  simp [goRetry, h0, hnr]

theorem c7_nonretryable_propagates_witness :
    (fun _ => (Except.error ⟨ExcClass.typeError, 5⟩ : Except Exc Unit)) 0 =
      Except.error ⟨ExcClass.typeError, 5⟩ ∧
    retryableExc { retryable_exceptions := [ExcClass.valueError] }
      ⟨ExcClass.typeError, 5⟩ = false ∧
    execute_with_retry { retryable_exceptions := [ExcClass.valueError] }
      (fun _ => (Except.error ⟨ExcClass.typeError, 5⟩ : Except Exc Unit))
      (fun _ => 0) = ⟨Except.error ⟨ExcClass.typeError, 5⟩, 0, 0⟩ := by
  refine ⟨rfl, rfl, ?_⟩
  exact c7_nonretryable_propagates _ _ _ _ rfl rfl

/-! ## Claims about the facade's failure classification -/

/-- The default `RetryConfig()` (all dataclass defaults). -/
def defaultRetryConfig : RetryConfig := {}

/-- C8 counterexample: a Protocol failure of the client (an invalid JSON
frame) is raised as `MCPChatbotClientError`, which the default retry
configuration classifies as retryable — `retryable_exceptions` defaults
to the single entry `Exception`, matched by every client failure — so a
retry wrapper built from this repository's engine retries it (four
retry-counter increments for a persistently failing call under the
default `max_retries = 3`) instead of failing fast. -/
theorem c8_protocol_is_retryable_cex :
    retryableExc defaultRetryConfig (excOfClientErr ClientErr.invalidJson) = true ∧
    retryableExc defaultRetryConfig (excOfClientErr ClientErr.notConnected) = true ∧
    (execute_with_retry defaultRetryConfig
      (fun _ => (Except.error (excOfClientErr ClientErr.invalidJson) : Except Exc Unit))
      (fun _ => 0)).retriesDelta = 4 := by
  refine ⟨rfl, rfl, ?_⟩
  simp [execute_with_retry, goRetry, defaultRetryConfig, retryableExc,
    ExcClass.isSubclassOf, excOfClientErr]

/-- C8 amended: the code draws no distinction between failure kinds —
every failure of the chatbot client is raised as the single exception
class `MCPChatbotClientError`, and the retry configuration's default
`retryable_exceptions = (Exception,)` classifies every one of them
(Timeout, Remote, Protocol and NotConnected alike) as retryable; no
fail-fast classification exists anywhere in the code. -/
theorem c8_uniform_classification (e : ClientErr) :
    (excOfClientErr e).cls = ExcClass.mcpChatbotClientError ∧
    retryableExc defaultRetryConfig (excOfClientErr e) = true :=
  ⟨rfl, rfl⟩

/-- The configuration of the repository's own
`test_total_retries_tracking`: `RetryConfig(max_retries=2,
base_delay=0.001, jitter=False)`. -/
def cfgCounterTest : RetryConfig :=
  { max_retries := 2, base_delay := 1/1000, jitter := false }

/-- C2 is the intended behaviour but the code breaks it: `_total_retries`
is incremented inside the `except` block on every failed attempt,
including the terminal one, so an operation failing all `m + 1` attempts
under `max_retries = m` adds `m + 1` — not `m` — to the counter.  Under
the test's `max_retries = 2` an always-failing operation yields three
increments (where the claim, the spec and the repository's own test
expect two), while the rest of the result (success flag, attempt count,
accumulated delay, last exception) matches the claim. -/
theorem c2_terminal_failure_still_counted :
    (execute_with_retry cfgCounterTest
      (fun i => (Except.error ⟨ExcClass.valueError, i⟩ : Except Exc Unit))
      (fun _ => 0)).retriesDelta = 2 + 1 ∧
    (execute_with_retry cfgCounterTest
      (fun i => (Except.error ⟨ExcClass.valueError, i⟩ : Except Exc Unit))
      (fun _ => 0)).outcome =
      Except.ok { success := false, result := none, attempts := 3,
                  total_delay := 3/1000,
                  last_exception := some ⟨ExcClass.valueError, 2⟩ } := by
  constructor
  · simp [execute_with_retry, goRetry, cfgCounterTest, retryableExc,
      ExcClass.isSubclassOf]
  · norm_num [execute_with_retry, goRetry, cfgCounterTest, retryableExc,
      ExcClass.isSubclassOf, calculate_delay]

/-- Unrolling of the retry loop over `k` consecutive retryable failures
followed by a success, from an arbitrary loop position. -/
lemma goRetry_succeeds (cfg : RetryConfig) (op : Nat → Except Exc α)
    (us : Nat → ℚ) (err : Nat → Exc) (v : α) :
    ∀ (k a retries : Nat) (td : ℚ) (last : Option Exc),
    a + k ≤ cfg.max_retries →
    (∀ i, i < k → op (a + i) = Except.error (err (a + i)) ∧
      retryableExc cfg (err (a + i)) = true) →
    op (a + k) = Except.ok v →
    goRetry cfg op us a (cfg.max_retries + 1 - a) retries td last =
      ⟨Except.ok { success := true, result := some v, attempts := a + k + 1,
                   total_delay := td + sumDelays cfg us a k,
                   last_exception := none },
       retries + k, td + sumDelays cfg us a k⟩ := by
  intro k
  induction k with
  | zero =>
    intro a retries td last ha _hfail hsucc
    obtain ⟨r, hr⟩ : ∃ r, cfg.max_retries + 1 - a = r + 1 :=
      ⟨cfg.max_retries - a, by omega⟩
    rw [hr]
    rw [Nat.add_zero] at hsucc
    simp [goRetry, hsucc, sumDelays]
  | succ k ih =>
    intro a retries td last ha hfail hsucc
    obtain ⟨r, hr⟩ : ∃ r, cfg.max_retries + 1 - a = r + 1 :=
      ⟨cfg.max_retries - a, by omega⟩
    rw [hr]
    have h0 := hfail 0 (Nat.succ_pos k)
    rw [Nat.add_zero] at h0
    have hlt : a < cfg.max_retries := by omega
    have hr2 : r = cfg.max_retries + 1 - (a + 1) := by omega
    have hrec := ih (a + 1) (retries + 1) (td + calculate_delay cfg a (us a))
      (some (err a))
      (by omega)
      (fun i hi => by
        have h := hfail (i + 1) (by omega)
        rwa [show a + (i + 1) = a + 1 + i by omega] at h)
      (by rwa [show a + (k + 1) = a + 1 + k by omega] at hsucc)
    simp only [goRetry, h0.1, h0.2, if_true, hlt, if_pos]
    rw [hr2, hrec]
    have h1 : a + 1 + k + 1 = a + (k + 1) + 1 := by omega
    have h2 : retries + 1 + k = retries + (k + 1) := by omega
    have h3 : td + calculate_delay cfg a (us a) + sumDelays cfg us (a + 1) k =
        td + sumDelays cfg us a (k + 1) := by
      simp only [sumDelays]
      ring
    rw [h1, h2, h3]

/-- C6: an operation raising a retryable exception on exactly its first
`k` attempts and then succeeding, under a configuration with
`max_retries ≥ k`, yields a successful result carrying the operation's
value, `attempts = k + 1`, exactly `k` increments of the shared
`_total_retries` counter, and `total_delay` equal to the sum of the
delays actually incurred (`0` when `k = 0`). -/
theorem c6_eventual_success (cfg : RetryConfig) (op : Nat → Except Exc α)
    (us : Nat → ℚ) (err : Nat → Exc) (k : Nat) (v : α)
    (hk : k ≤ cfg.max_retries)
    (hfail : ∀ i, i < k → op i = Except.error (err i) ∧
      retryableExc cfg (err i) = true)
    (hsucc : op k = Except.ok v) :
    execute_with_retry cfg op us =
      ⟨Except.ok { success := true, result := some v, attempts := k + 1,
                   total_delay := sumDelays cfg us 0 k,
                   last_exception := none },
       k, sumDelays cfg us 0 k⟩ := by
  have h := goRetry_succeeds cfg op us err v k 0 0 0 none
    (by omega) (by simpa using hfail) (by simpa using hsucc)
  simpa [execute_with_retry] using h

def cfgC6 : RetryConfig :=
  { max_retries := 2, jitter := false, strategy := RetryStrategy.constant }

def opC6 : Nat → Except Exc Nat :=
  fun i => if i = 0 then Except.error ⟨ExcClass.valueError, 7⟩ else Except.ok 42

theorem c6_eventual_success_witness :
    (1 : Nat) ≤ cfgC6.max_retries ∧
    execute_with_retry cfgC6 opC6 (fun _ => 0) =
      ⟨Except.ok { success := true, result := some 42, attempts := 2,
                   total_delay := sumDelays cfgC6 (fun _ => 0) 0 1,
                   last_exception := none },
       1, sumDelays cfgC6 (fun _ => 0) 0 1⟩ := by
  refine ⟨by decide, ?_⟩
  exact c6_eventual_success cfgC6 opC6 (fun _ => 0)
    (fun _ => ⟨ExcClass.valueError, 7⟩) 1 42
    (by decide)
    (fun i hi => by
      have h : i = 0 := by omega
      subst h
      exact ⟨rfl, rfl⟩)
    rfl

/-! ## Claims about the client -/

/-- The client state after `n` calls of `_get_next_request_id` on a
fresh instance (`request_id = 0` from `__init__`; `connect` does not
touch the counter). -/
def clientAfterRequests : Nat → MCPChatbotClient
  | 0 => initClient
  | n + 1 => (get_next_request_id (clientAfterRequests n)).1

/-- The id attached to the `n`-th request (0-indexed) of an instance. -/
def nthRequestId (n : Nat) : Nat :=
  (get_next_request_id (clientAfterRequests n)).2

lemma clientAfterRequests_request_id (n : Nat) :
    (clientAfterRequests n).request_id = n := by
  induction n with
  | zero => rfl
  | succ n ih => simp [clientAfterRequests, get_next_request_id, ih]

/-- C10: the ids attached to a client instance's successive requests are
`1, 2, 3, ...`: the first is 1, they strictly increase, and none is ever
reused (the assignment is injective). -/
theorem c10_request_ids :
    nthRequestId 0 = 1 ∧ (∀ n, nthRequestId n = n + 1) ∧
    (∀ m n, m < n → nthRequestId m < nthRequestId n) ∧
    (∀ m n, nthRequestId m = nthRequestId n → m = n) := by
  have h : ∀ n, nthRequestId n = n + 1 := fun n => by
    simp [nthRequestId, get_next_request_id, clientAfterRequests_request_id]
  refine ⟨h 0, h, fun m n hmn => ?_, fun m n hmn => ?_⟩
  · rw [h, h]
    omega
  · rw [h, h] at hmn
    omega

theorem c10_request_ids_witness :
    nthRequestId 0 = 1 ∧ nthRequestId 0 < nthRequestId 1 :=
  ⟨c10_request_ids.1, c10_request_ids.2.2.1 0 1 (by decide)⟩

/-- Result of `json.loads` on the frame `{"id": 99, "result": "pong"}`. -/
def respWrongId : Json := .obj [("id", .num 99), ("result", .str "pong")]

/-- A pipe pair whose stdout already holds the id-99 response frame. -/
def procWrongId : ProcState := ⟨true, [], [Except.ok respWrongId]⟩

/-- A freshly connected client in front of `procWrongId`. -/
def clientWrongId : MCPChatbotClient := ⟨some procWrongId, 0, none, 0⟩

/-- C1 fails as stated: the request just written carries id 1, the
decoded response frame carries id 99 ≠ 1, yet `_send_request` returns the
response value — the code never compares the response id with the
request id, so no `MCPChatbotClientError` is raised. -/
theorem c1_no_id_check_cex :
    (send_request clientWrongId "ping" (Json.obj [])).1.request_id = 1 ∧
    jsonGet respWrongId "id" = some (Json.num 99) ∧
    (99 : Int) ≠ 1 ∧
    (send_request clientWrongId "ping" (Json.obj [])).2 =
      Except.ok respWrongId := by
  refine ⟨rfl, rfl, by decide, rfl⟩

/-- C1 amended: whenever a parseable response frame is available,
`_send_request` returns it as the call's value whatever id it carries;
no Protocol check relates the decoded id to the request id. -/
theorem c1_response_returned_without_id_check (st : MCPChatbotClient)
    (p : ProcState) (j : Json) (rest : List (Except String Json))
    (method : String) (params : Json)
    (hp : st.process = some p) (ha : p.alive = true)
    (hq : p.stdoutFrames = Except.ok j :: rest) :
    (send_request st method params).2 = Except.ok j := by
  simp [send_request, hp, ha, hq]

theorem c1_response_returned_without_id_check_witness :
    (send_request clientWrongId "ping" (Json.obj [])).2 =
      Except.ok respWrongId :=
  c1_response_returned_without_id_check clientWrongId procWrongId
    respWrongId [] "ping" (Json.obj []) rfl rfl rfl

/-- C9: when no response frame is available (the read deadline expires),
`_send_request` fails with the timeout error but leaves the transport
intact — the process handle is retained with the child still alive, so
`is_connected` stays true — and once the server delivers a response
frame, a subsequent independent call on the same client succeeds. -/
theorem c9_timeout_preserves_transport (st : MCPChatbotClient)
    (p : ProcState) (method m2 : String) (params q2 : Json) (j : Json)
    (hp : st.process = some p) (ha : p.alive = true)
    (hq : p.stdoutFrames = []) :
    (send_request st method params).2 = Except.error ClientErr.timeout ∧
    (send_request st method params).1.process =
      some ⟨p.alive, p.stdinFrames ++
        [toJsonMessage method params ((st.request_id + 1 : Nat) : Int)],
        p.stdoutFrames⟩ ∧
    is_connected (send_request st method params).1 = true ∧
    (send_request (deliverFrame (send_request st method params).1
      (Except.ok j)) m2 q2).2 = Except.ok j := by
  have key : send_request st method params =
      (⟨some ⟨p.alive, p.stdinFrames ++
          [toJsonMessage method params ((st.request_id + 1 : Nat) : Int)],
          p.stdoutFrames⟩,
        st.request_id + 1, st.tools_cache, st.tools_cache_time⟩,
       Except.error ClientErr.timeout) := by
    simp [send_request, hp, ha, hq]
  rw [key]
  refine ⟨rfl, rfl, ?_, ?_⟩
  · simp [is_connected, ha]
  · simp [deliverFrame, send_request, hq, ha]

/-- A connected client with an empty stdout queue. -/
def clientNoAnswer : MCPChatbotClient := ⟨some ⟨true, [], []⟩, 0, none, 0⟩

theorem c9_timeout_preserves_transport_witness :
    (send_request clientNoAnswer "ping" (Json.obj [])).2 =
      Except.error ClientErr.timeout ∧
    (send_request clientNoAnswer "ping" (Json.obj [])).1.process =
      some ⟨true, [] ++ [toJsonMessage "ping" (Json.obj []) 1], []⟩ ∧
    is_connected (send_request clientNoAnswer "ping" (Json.obj [])).1 = true ∧
    (send_request (deliverFrame (send_request clientNoAnswer "ping"
      (Json.obj [])).1 (Except.ok (Json.str "pong"))) "tools/list"
      (Json.obj [])).2 = Except.ok (Json.str "pong") :=
  c9_timeout_preserves_transport clientNoAnswer ⟨true, [], []⟩
    "ping" "tools/list" (Json.obj []) (Json.obj []) (Json.str "pong")
    rfl rfl rfl

/-- C3 amended, part of one statement below: serving from the cache
requires the stored value to be truthy (a non-empty tools list) besides
being younger than the 60-second TTL; on expiry the request is re-sent
and the cache replaced with a fresh timestamp. -/
theorem c3_cache_behaviour (st : MCPChatbotClient) (now : ℚ) (t : Json)
    (p : ProcState) (res : Json) (rest : List (Except String Json)) :
    (st.tools_cache = some t → jsonTruthy t = true →
      now - st.tools_cache_time < 60 →
      list_tools st now true = (st, Except.ok t)) ∧
    (st.process = some p → p.alive = true →
      ¬(now - st.tools_cache_time < 60) →
      p.stdoutFrames = Except.ok (Json.obj [("result", res)]) :: rest →
      list_tools st now true =
        (⟨some ⟨p.alive, p.stdinFrames ++
            [toJsonMessage "tools/list" (Json.obj [])
              ((st.request_id + 1 : Nat) : Int)],
            rest⟩,
          st.request_id + 1,
          some ((jsonGet res "tools").getD (Json.arr [])), now⟩,
         Except.ok ((jsonGet res "tools").getD (Json.arr [])))) := by
  constructor
  · intro hc ht h60
    simp [list_tools, cacheTruthy, hc, ht, h60]
  · intro hp ha h60 hq
    simp [list_tools, cacheTruthy, h60, send_request, hp, ha, hq,
      jsonGet, jsonGet.go]

/-- A disconnected client holding a one-element tools cache captured at
time 0. -/
def clientCachedTools : MCPChatbotClient :=
  ⟨none, 5, some (Json.arr [Json.str "t1"]), 0⟩

/-- A connected client with a stale cache (captured at time 0, consulted
at time 61) whose server will answer with a one-element tools list. -/
def clientStaleCache : MCPChatbotClient :=
  ⟨some ⟨true, [], [Except.ok (Json.obj [("result",
    Json.obj [("tools", Json.arr [Json.str "t2"])])])]⟩,
   0, some (Json.arr [Json.str "t1"]), 0⟩

theorem c3_cache_behaviour_witness :
    list_tools clientCachedTools 1 true =
      (clientCachedTools, Except.ok (Json.arr [Json.str "t1"])) ∧
    list_tools clientStaleCache 61 true =
      (⟨some ⟨true, [] ++ [toJsonMessage "tools/list" (Json.obj []) 1],
         []⟩, 1, some (Json.arr [Json.str "t2"]), 61⟩,
       Except.ok (Json.arr [Json.str "t2"])) := by
  constructor
  · exact (c3_cache_behaviour clientCachedTools 1 (Json.arr [Json.str "t1"])
      ⟨true, [], []⟩ Json.null []).1 rfl rfl (by norm_num [clientCachedTools])
  · have h := (c3_cache_behaviour clientStaleCache 61 Json.null
      ⟨true, [], [Except.ok (Json.obj [("result",
        Json.obj [("tools", Json.arr [Json.str "t2"])])])]⟩
      (Json.obj [("tools", Json.arr [Json.str "t2"])]) []).2
      rfl rfl (by norm_num [clientStaleCache]) rfl
    simpa [jsonGet, jsonGet.go] using h

/-- Result of `json.loads` on `{"result": {"tools": []}}`. -/
def frameEmptyTools : Except String Json :=
  Except.ok (Json.obj [("result", Json.obj [("tools", Json.arr [])])])

/-- Result of `json.loads` on `{"result": {"tools": ["t1"]}}`. -/
def frameOneTool : Except String Json :=
  Except.ok (Json.obj [("result", Json.obj [("tools", Json.arr [Json.str "t1"])])])

/-- A connected client whose server will answer the next two requests
with an empty tools list, then a one-element tools list. -/
def clientTwoAnswers : MCPChatbotClient :=
  ⟨some ⟨true, [], [frameEmptyTools, frameOneTool]⟩, 0, none, 0⟩

/-- C3 fails as stated for an empty stored value: the first call stores
the empty tools list with timestamp 5; a second `use_cache = true` call
at time 6 — well inside the 60-second TTL — does not return the stored
value, because `if use_cache and self._tools_cache:` is false for an
empty list: the code sends `tools/list` again (a second request frame
reaches the server's stdin) and returns the fresh answer instead of the
cached one. -/
theorem c3_empty_cache_not_served_cex :
    (list_tools clientTwoAnswers 5 true).1.tools_cache =
      some (Json.arr []) ∧
    (list_tools clientTwoAnswers 5 true).1.tools_cache_time = 5 ∧
    (6 : ℚ) - (list_tools clientTwoAnswers 5 true).1.tools_cache_time < 60 ∧
    (list_tools (list_tools clientTwoAnswers 5 true).1 6 true).2 =
      Except.ok (Json.arr [Json.str "t1"]) ∧
    ((list_tools (list_tools clientTwoAnswers 5 true).1 6 true).1.process.map
      fun q => q.stdinFrames.length) = some 2 := by
  have h1 : list_tools clientTwoAnswers 5 true =
      (⟨some ⟨true, [toJsonMessage "tools/list" (Json.obj []) 1],
         [frameOneTool]⟩, 1, some (Json.arr []), 5⟩,
       Except.ok (Json.arr [])) := by
    simp [list_tools, clientTwoAnswers, cacheTruthy, send_request,
      frameEmptyTools, frameOneTool, jsonGet, jsonGet.go]
  have h2 : list_tools
      (⟨some ⟨true, [toJsonMessage "tools/list" (Json.obj []) 1],
         [frameOneTool]⟩, 1, some (Json.arr []), 5⟩ : MCPChatbotClient)
      6 true =
      (⟨some ⟨true, [toJsonMessage "tools/list" (Json.obj []) 1,
         toJsonMessage "tools/list" (Json.obj []) 2], []⟩, 2,
        some (Json.arr [Json.str "t1"]), 6⟩,
       Except.ok (Json.arr [Json.str "t1"])) := by
    simp [list_tools, cacheTruthy, jsonTruthy, send_request,
      frameOneTool, jsonGet, jsonGet.go]
  rw [h1]
  rw [h2]
  refine ⟨rfl, rfl, by norm_num, rfl, rfl⟩
